import Mathlib

/-!
# Verification of the Rialcom tariff-page interpreter

A shallow embedding of `src/app/parser_rialcom.py` (classes `ParserRialcom`
and `DataRialcom`).  HTML cells are modelled by their text content
(`String`); a table row carries its list of header-cell texts (`th`) and
data-cell texts (`td`); a table is its list of rows.  Python exceptions
are modelled by the `PyErr` type and fallible code returns `Except PyErr`.
-/

namespace Rialcom

/-! ## Python string primitives used by the parser -/

/-- Characters of a string with leading and trailing whitespace removed:
Python `str.strip()`. -/
def stripChars (l : List Char) : List Char :=
  ((l.dropWhile Char.isWhitespace).reverse.dropWhile Char.isWhitespace).reverse

/-- Python `str.strip()` on a string. -/
def pyStrip (s : String) : String := ⟨stripChars s.data⟩

/-- Value of a list of decimal digit characters, most significant first. -/
def digitsToNat (l : List Char) : Nat :=
  l.foldl (fun n c => 10 * n + (c.toNat - 48)) 0

/-- `re.search(r"\d+", ·)`: the first maximal run of decimal digits in the
character list, or `none` when the string has no digit (in which case the
Python code's `.group()` raises `AttributeError`). -/
def firstDigitRun : List Char → Option (List Char)
  | [] => none
  | c :: cs => if c.isDigit then some (c :: cs.takeWhile Char.isDigit) else firstDigitRun cs

/-- `int(re.search(r"\d+", s).group())` as an `Option`: the first digit run
of `s` as a number. -/
def firstDigitRunNat (s : String) : Option Nat :=
  (firstDigitRun s.data).map digitsToNat

/-- Python `int(s)` for the strings the parser feeds it: optional
surrounding whitespace, an optional sign, then one or more decimal digits;
anything else raises `ValueError` (modelled as `none`). -/
def pyInt (s : String) : Option Int :=
  match stripChars s.data with
  | '-' :: ds => if ds ≠ [] ∧ ds.all Char.isDigit then some (-(digitsToNat ds : Int)) else none
  | '+' :: ds => if ds ≠ [] ∧ ds.all Char.isDigit then some (digitsToNat ds : Int) else none
  | ds => if ds ≠ [] ∧ ds.all Char.isDigit then some (digitsToNat ds : Int) else none

/-- Python `str.split()` with no argument: split on runs of whitespace,
discarding empty pieces. -/
def splitWsAux : List Char → List Char → List String
  | [], acc => if acc.isEmpty then [] else [⟨acc.reverse⟩]
  | c :: cs, acc =>
    if c.isWhitespace then
      if acc.isEmpty then splitWsAux cs [] else (⟨acc.reverse⟩ : String) :: splitWsAux cs []
    else splitWsAux cs (c :: acc)

/-- Python `str.split()` on a string. -/
def pySplit (s : String) : List String := splitWsAux s.data []

/-- Whether `p` occurs as a contiguous sublist of the second list. -/
def subOccurs (p : List Char) : List Char → Bool
  | [] => p.isEmpty
  | c :: cs => p.isPrefixOf (c :: cs) || subOccurs p cs

/-- `re.search(pat, s) is not None` for a pattern with no metacharacters:
case-sensitive substring search. -/
def containsSub (pat s : String) : Bool := subOccurs pat.data s.data

/-- Drop trailing whitespace of a character list (the `\s*` swallowed
between the regex groups `name` and the parenthesis). -/
def trimRightWs (l : List Char) : List Char :=
  (l.reverse.dropWhile Char.isWhitespace).reverse

/-- Scanner for `re.search(r"(?P<name>[\s\S]*?)\s*\((?P<num>\d+)[\s\S]*\)", tariff)`.
The lazy `name` group makes the engine pick the first `'('` that is
immediately followed by a digit and has some `')'` after that digit;
`name` captures everything before that `'('` with the whitespace run
directly preceding it stripped (it is eaten by `\s*`), and `num` captures
the maximal digit run after the `'('`.  `acc` holds the characters already
scanned, in reverse. -/
def bundleScan : List Char → List Char → Option (String × Nat)
  | [], _ => none
  | c :: rest, acc =>
    if c = '(' then
      let ds := rest.takeWhile Char.isDigit
      if ds.isEmpty then bundleScan rest (c :: acc)
      else if (rest.dropWhile Char.isDigit).contains ')' then
        some (⟨trimRightWs acc.reverse⟩, digitsToNat ds)
      else bundleScan rest (c :: acc)
    else bundleScan rest (c :: acc)

/-- The bundle-label pattern match of `__process_tariff_TV`: `none` models
a failed `re.search` (whose `.groupdict()` then raises `AttributeError`). -/
def bundleSearch (s : String) : Option (String × Nat) := bundleScan s.data []

/-! ## Data model -/

/-- A Python exception escaping the parser.  The code raises only raw
built-in exceptions; none of their payloads mentions a table index, a row
index or a field name (`ValueError` from `int()` quotes just the offending
literal). -/
inductive PyErr where
  /-- `IndexError: list index out of range` (`rows[0]`, `columns[i]`, `split()[0]`). -/
  | indexError : PyErr
  /-- `AttributeError` from calling `.group()`/`.groupdict()` on a failed `re.search`. -/
  | attrError : PyErr
  /-- `ValueError: invalid literal for int() ...`, carrying the literal. -/
  | valueError (lit : String) : PyErr
deriving DecidableEq, Repr

/-- One `<tr>` row: the texts of its `th` cells and of its `td` cells. -/
structure Row where
  ths : List String
  tds : List String
deriving DecidableEq, Repr

/-- A `<table>`: its list of rows (`table.find_all('tr')`). -/
abbrev Table := List Row

/-- A channel-list entry: `DataRialcom` appends the literal string
`'null'` for Schema A rows and an integer for Schema B rows. -/
abbrev ChannelCell := Sum String Nat

/-- The mutable state of a `DataRialcom` instance: the four output lists
and the `count_tariff_channel` dict (an insertion-ordered association
list). -/
structure RState where
  names : List String
  channels : List ChannelCell
  speeds : List Nat
  payments : List Int
  registry : List (String × Nat)
deriving DecidableEq, Repr

/-- The state right after `ParserRialcom.__init__`: empty lists, empty dict. -/
def initRState : RState := ⟨[], [], [], [], []⟩

/-- Python dict assignment `d[k] = v`: overwrite in place or append. -/
def dictInsert (d : List (String × Nat)) (k : String) (v : Nat) : List (String × Nat) :=
  if (d.lookup k).isSome then d.map (fun p => if p.1 = k then (k, v) else p) else d ++ [(k, v)]

/-- One output record (one quadruple of appends to the four lists). -/
structure Rec where
  name : String
  chan : ChannelCell
  speed : Nat
  pay : Int
deriving DecidableEq, Repr

/-- Append one record to the four parallel lists. -/
def appendRecord (s : RState) (r : Rec) : RState :=
  { s with
    names := s.names ++ [r.name]
    channels := s.channels ++ [r.chan]
    speeds := s.speeds ++ [r.speed]
    payments := s.payments ++ [r.pay] }

/-- Append a list of records in order. -/
def appendRecords (s : RState) (rs : List Rec) : RState := rs.foldl appendRecord s

/-! ## The interpreter (`DataRialcom`) -/

/-- `__process_tariff`, Schema A: the loop body over `rows[1:]`.  Each row
appends name = stripped cell 0, channels = the string `'null'`, speed =
first digit run of stripped cell 3 divided by 1000 (truncating), payment
= `int` of the first whitespace token of stripped cell 1, evaluated in
the statement order of the Python body (any raised exception aborts). -/
def processTariffRows (rows : List Row) (s : RState) : Except PyErr RState :=
  match rows with
  | [] => Except.ok s
  | row :: rest =>
    match row.tds[0]? with
    | none => Except.error PyErr.indexError
    | some c0 =>
      match row.tds[3]? with
      | none => Except.error PyErr.indexError
      | some c3 =>
        match firstDigitRunNat (pyStrip c3) with
        | none => Except.error PyErr.attrError
        | some run =>
          match row.tds[1]? with
          | none => Except.error PyErr.indexError
          | some c1 =>
            match (pySplit (pyStrip c1))[0]? with
            | none => Except.error PyErr.indexError
            | some tok =>
              match pyInt tok with
              | none => Except.error (PyErr.valueError tok)
              | some pay =>
                processTariffRows rest
                  (appendRecord s ⟨pyStrip c0, Sum.inl "null", run / 1000, pay⟩)

/-- `__process_tariff(rows)`: skip the header row, process the rest. -/
def processTariff (s : RState) (rows : List Row) : Except PyErr RState :=
  processTariffRows (rows.drop 1) s

/-- The record synthesized for one speed column of a Schema B row. -/
def mkTVName (tariff : String) (speed : Nat) (isTariff : Bool) : String :=
  tariff ++ " + РиалКом Интернет " ++ toString speed ++
    (if isTariff then " + TB_ч" else " + TB")

/-- `__wrtite_tariff_TV`'s loop `for i in range(1, len(heads))`, given the
already-dropped tails `heads[1:]` and `columns[1:]` (kept index-aligned:
step `k` reads `heads[1+k]` and `columns[1+k]`).  Each step appends one
record: speed = first digit run of the stripped header cell
(`AttributeError` when absent), payment = `int` of the stripped data cell
(`IndexError` when the column is missing, `ValueError` when non-numeric). -/
def wrtiteTariffTVCols (tariff : String) (channel : Nat) (isTariff : Bool) :
    List String → List String → RState → Except PyErr RState
  | [], _, s => Except.ok s
  | h :: hs, cols, s =>
    match firstDigitRunNat (pyStrip h) with
    | none => Except.error PyErr.attrError
    | some speed =>
      match cols with
      | [] => Except.error PyErr.indexError
      | c :: cs =>
        match pyInt (pyStrip c) with
        | none => Except.error (PyErr.valueError (pyStrip c))
        | some pay =>
          wrtiteTariffTVCols tariff channel isTariff hs cs
            (appendRecord s ⟨mkTVName tariff speed isTariff, Sum.inr channel, speed, pay⟩)

/-- `__wrtite_tariff_TV(heads, columns, channel, is_tariff, tariff)`. -/
def wrtiteTariffTV (s : RState) (heads columns : List String) (channel : Nat)
    (isTariff : Bool) (tariff : String) : Except PyErr RState :=
  wrtiteTariffTVCols tariff channel isTariff (heads.drop 1) (columns.drop 1) s

/-- `__process_tariff_TV`, Schema B: the loop body over `rows[1:]`.  The
stripped cell-0 label is looked up in the `count_tariff_channel` dict; a
hit reuses the stored count with `is_tariff = True`, a miss runs the
bundle regex (`AttributeError` on failure) and stores the captured base
name, with `is_tariff = False`. -/
def processTariffTVRows (heads : List String) (rows : List Row) (s : RState) :
    Except PyErr RState :=
  match rows with
  | [] => Except.ok s
  | row :: rest =>
    match row.tds[0]? with
    | none => Except.error PyErr.indexError
    | some c0 =>
      match s.registry.lookup (pyStrip c0) with
      | some channel =>
        match wrtiteTariffTV s heads row.tds channel true (pyStrip c0) with
        | Except.error e => Except.error e
        | Except.ok s' => processTariffTVRows heads rest s'
      | none =>
        match bundleSearch (pyStrip c0) with
        | none => Except.error PyErr.attrError
        | some (base, num) =>
          match wrtiteTariffTV { s with registry := dictInsert s.registry base num }
              heads row.tds num false (pyStrip c0) with
          | Except.error e => Except.error e
          | Except.ok s' => processTariffTVRows heads rest s'

/-- `__process_tariff_TV(rows, heads)`: skip the header row, process the rest. -/
def processTariffTV (s : RState) (rows : List Row) (heads : List String) :
    Except PyErr RState :=
  processTariffTVRows heads (rows.drop 1) s

/-- The classification string: `' '.join(map(lambda x: x.get_text(), heads))`. -/
def unitedHeads (heads : List String) : String := String.intercalate " " heads

/-- The per-table step of `DataRialcom.process_data`: read `rows[0]`'s
header cells (`IndexError` on an empty table), classify by substring
search — `"тариф"` first, then `"Интернет"`, else skip. -/
def processTable (s : RState) (table : Table) : Except PyErr RState :=
  match table[0]? with
  | none => Except.error PyErr.indexError
  | some r0 =>
    if containsSub "тариф" (unitedHeads r0.ths) then processTariff s table
    else if containsSub "Интернет" (unitedHeads r0.ths) then processTariffTV s table r0.ths
    else Except.ok s

/-- `DataRialcom.process_data()`: fold the per-table step over all tables
of the document, starting from the instance state `s`; on success the
method returns `[names, channels, speeds, payments]`, i.e. the four list
fields of the final state. -/
def dataProcessData (s : RState) (tables : List Table) : Except PyErr RState :=
  match tables with
  | [] => Except.ok s
  | t :: rest =>
    match processTable s t with
    | Except.error e => Except.error e
    | Except.ok s' => dataProcessData s' rest

/-! ## The public wrapper (`ParserRialcom`) -/

/-- The fields of a `ParserRialcom` instance: its own four lists and dict
(set by `__init__`) and the parsed page `self.data`. -/
structure ParserState where
  names : List String
  channels : List ChannelCell
  speeds : List Nat
  payments : List Int
  registry : List (String × Nat)
  data : List Table
deriving DecidableEq, Repr

/-- `ParserRialcom.process_data()`: constructs a fresh
`DataRialcom(self.data)` — whose `__init__` calls `super().__init__()`,
resetting the four lists and the dict — and runs its `process_data`. -/
def parserProcessData (ps : ParserState) : Except PyErr RState :=
  dataProcessData initRState ps.data

/-- The fixed spreadsheet headers of `save_data`. -/
def excelHeaders : List String :=
  ["Название тарифа", "Количество каналов", "Скорость доступа", "Абонентская плата"]

/-- The produced export file: `save_data` builds a dict mapping
`headers[i]` to `data[i]` and writes it to `f"{name}.xlsx"`. -/
structure Export where
  filename : String
  cols : List (String × List String)
deriving DecidableEq, Repr

/-- Render a channel cell the way the spreadsheet writer shows it. -/
def showChannel : ChannelCell → String
  | Sum.inl s => s
  | Sum.inr n => toString n

/-- `ParserRialcom.save_data(name)`, applied to the four lists returned by
`process_data`: pairs the fixed headers with the four columns and writes
to `name + ".xlsx"`. -/
def saveData (name : String) (r : RState) : Export :=
  { filename := name ++ ".xlsx"
    cols := [(excelHeaders[0]!, r.names),
             (excelHeaders[1]!, r.channels.map showChannel),
             (excelHeaders[2]!, r.speeds.map toString),
             (excelHeaders[3]!, r.payments.map toString)] }

/-! ## Helper lemmas -/

lemma appendRecords_cons (s : RState) (r : Rec) (rs : List Rec) :
    appendRecords s (r :: rs) = appendRecords (appendRecord s r) rs := rfl

lemma appendRecords_names (s : RState) (rs : List Rec) :
    (appendRecords s rs).names = s.names ++ rs.map Rec.name := by
  induction rs generalizing s with
  | nil => simp [appendRecords]
  | cons r rs ih => simp [appendRecords_cons, ih, appendRecord]

lemma appendRecords_channels (s : RState) (rs : List Rec) :
    (appendRecords s rs).channels = s.channels ++ rs.map Rec.chan := by
  induction rs generalizing s with
  | nil => simp [appendRecords]
  | cons r rs ih => simp [appendRecords_cons, ih, appendRecord]

lemma appendRecords_speeds (s : RState) (rs : List Rec) :
    (appendRecords s rs).speeds = s.speeds ++ rs.map Rec.speed := by
  induction rs generalizing s with
  | nil => simp [appendRecords]
  | cons r rs ih => simp [appendRecords_cons, ih, appendRecord]

lemma appendRecords_payments (s : RState) (rs : List Rec) :
    (appendRecords s rs).payments = s.payments ++ rs.map Rec.pay := by
  induction rs generalizing s with
  | nil => simp [appendRecords]
  | cons r rs ih => simp [appendRecords_cons, ih, appendRecord]

lemma appendRecords_registry (s : RState) (rs : List Rec) :
    (appendRecords s rs).registry = s.registry := by
  induction rs generalizing s with
  | nil => simp [appendRecords]
  | cons r rs ih => simp [appendRecords_cons, ih, appendRecord]

/-- Characterization of a successful `__wrtite_tariff_TV` loop over the
aligned tails `hs = heads[1:]`, `cs = columns[1:]`: it appends exactly one
record per header cell, whose fields are determined column by column. -/
lemma wrtiteCols_ok_spec (tariff : String) (ch : Nat) (it : Bool) :
    ∀ (hs cs : List String) (s s' : RState),
      wrtiteTariffTVCols tariff ch it hs cs s = Except.ok s' →
      ∃ rs : List Rec, s' = appendRecords s rs ∧ rs.length = hs.length ∧
        ∀ k, k < hs.length →
          ∃ h c sp pay, hs[k]? = some h ∧ cs[k]? = some c ∧
            firstDigitRunNat (pyStrip h) = some sp ∧ pyInt (pyStrip c) = some pay ∧
            rs[k]? = some ⟨mkTVName tariff sp it, Sum.inr ch, sp, pay⟩ := by
  intro hs
  induction hs with
  | nil =>
    intro cs s s' hok
    simp only [wrtiteTariffTVCols, Except.ok.injEq] at hok
    exact ⟨[], hok ▸ rfl, rfl, fun k hk => absurd hk (Nat.not_lt_zero k)⟩
  | cons h hs ih =>
    intro cs s s' hok
    rw [wrtiteTariffTVCols] at hok
    split at hok
    next => exact absurd hok (by simp)
    next sp hsp =>
      split at hok
      next => exact absurd hok (by simp)
      next c cs =>
        split at hok
        next => exact absurd hok (by simp)
        next pay hpay =>
          obtain ⟨rs, hrs, hlen, hidx⟩ := ih cs _ s' hok
          refine ⟨⟨mkTVName tariff sp it, Sum.inr ch, sp, pay⟩ :: rs,
            by rw [appendRecords_cons]; exact hrs, by simp [hlen], ?_⟩
          intro k hk
          cases k with
          | zero => exact ⟨h, c, sp, pay, by simp, by simp, hsp, hpay, by simp⟩
          | succ k =>
            obtain ⟨h', c', sp', pay', h1, h2, h3, h4, h5⟩ := hidx k (by simpa using hk)
            exact ⟨h', c', sp', pay', by simpa using h1, by simpa using h2, h3, h4,
              by simpa using h5⟩

/-- A successful Schema A loop only extends the state with records whose
channel cell is the literal string `'null'`; the registry is untouched. -/
lemma processTariffRows_ok_spec :
    ∀ (rows : List Row) (s s' : RState),
      processTariffRows rows s = Except.ok s' →
      ∃ rs : List Rec, s' = appendRecords s rs ∧ ∀ r ∈ rs, r.chan = Sum.inl "null" := by
  intro rows
  induction rows with
  | nil =>
    intro s s' hok
    simp only [processTariffRows, Except.ok.injEq] at hok
    exact ⟨[], hok ▸ rfl, by simp⟩
  | cons row rest ih =>
    intro s s' hok
    rw [processTariffRows] at hok
    split at hok
    next => exact absurd hok (by simp)
    next c0 h0 =>
      split at hok
      next => exact absurd hok (by simp)
      next c3 h3 =>
        split at hok
        next => exact absurd hok (by simp)
        next run hrun =>
          split at hok
          next => exact absurd hok (by simp)
          next c1 h1 =>
            split at hok
            next => exact absurd hok (by simp)
            next tok htok =>
              split at hok
              next => exact absurd hok (by simp)
              next pay hpay =>
                obtain ⟨rs, hrs, hnull⟩ := ih _ s' hok
                refine ⟨⟨pyStrip c0, Sum.inl "null", run / 1000, pay⟩ :: rs,
                  by rw [appendRecords_cons]; exact hrs, ?_⟩
                intro r hr
                rcases List.mem_cons.mp hr with h | h
                · rw [h]
                · exact hnull r h

/-! ## The equal-length invariant -/

/-- The four output lists have equal length. -/
def eqLen (s : RState) : Prop :=
  s.names.length = s.channels.length ∧ s.channels.length = s.speeds.length ∧
    s.speeds.length = s.payments.length

lemma eqLen_appendRecord (s : RState) (r : Rec) (h : eqLen s) :
    eqLen (appendRecord s r) := by
  simp only [eqLen, appendRecord, List.length_append, List.length_cons,
    List.length_nil] at *
  omega

lemma eqLen_appendRecords (s : RState) (rs : List Rec) (h : eqLen s) :
    eqLen (appendRecords s rs) := by
  simp only [eqLen, appendRecords_names, appendRecords_channels, appendRecords_speeds,
    appendRecords_payments, List.length_append, List.length_map] at *
  omega

lemma eqLen_registry_set (s : RState) (d : List (String × Nat)) (h : eqLen s) :
    eqLen { s with registry := d } := h

lemma eqLen_wrtiteTariffTV (s s' : RState) (heads cols : List String) (ch : Nat)
    (it : Bool) (tariff : String) (h : eqLen s)
    (hok : wrtiteTariffTV s heads cols ch it tariff = Except.ok s') : eqLen s' := by
  rw [wrtiteTariffTV] at hok
  obtain ⟨rs, hrs, -, -⟩ := wrtiteCols_ok_spec tariff ch it _ _ s s' hok
  exact hrs ▸ eqLen_appendRecords s rs h

lemma eqLen_processTariffRows :
    ∀ (rows : List Row) (s s' : RState), eqLen s →
      processTariffRows rows s = Except.ok s' → eqLen s' := by
  intro rows s s' h hok
  obtain ⟨rs, hrs, -⟩ := processTariffRows_ok_spec rows s s' hok
  exact hrs ▸ eqLen_appendRecords s rs h

lemma eqLen_processTariffTVRows :
    ∀ (heads : List String) (rows : List Row) (s s' : RState), eqLen s →
      processTariffTVRows heads rows s = Except.ok s' → eqLen s' := by
  intro heads rows
  induction rows with
  | nil =>
    intro s s' h hok
    simp only [processTariffTVRows, Except.ok.injEq] at hok
    exact hok ▸ h
  | cons row rest ih =>
    intro s s' h hok
    rw [processTariffTVRows] at hok
    split at hok
    next => exact absurd hok (by simp)
    next c0 h0 =>
      split at hok
      next ch hch =>
        split at hok
        next => exact absurd hok (by simp)
        next s1 hs1 =>
          exact ih _ s' (eqLen_wrtiteTariffTV s s1 heads row.tds ch true (pyStrip c0) h hs1) hok
      next hch =>
        split at hok
        next => exact absurd hok (by simp)
        next base num hb =>
          split at hok
          next => exact absurd hok (by simp)
          next s1 hs1 =>
            exact ih _ s'
              (eqLen_wrtiteTariffTV _ s1 heads row.tds num false (pyStrip c0)
                (eqLen_registry_set s _ h) hs1) hok

lemma eqLen_processTable (s s' : RState) (t : Table) (h : eqLen s)
    (hok : processTable s t = Except.ok s') : eqLen s' := by
  rw [processTable] at hok
  split at hok
  next => exact absurd hok (by simp)
  next r0 h0 =>
    split at hok
    next => exact eqLen_processTariffRows _ s s' h (by rw [processTariff] at hok; exact hok)
    next =>
      split at hok
      next => exact eqLen_processTariffTVRows _ _ s s' h (by rw [processTariffTV] at hok; exact hok)
      next => simp only [Except.ok.injEq] at hok; exact hok ▸ h

/-- Positional access just past a list prefix. -/
lemma getElem?_middle {α : Type} (l1 : List α) (a : α) (l2 : List α) :
    (l1 ++ a :: l2)[l1.length]? = some a := by
  rw [List.getElem?_append_right (Nat.le_refl _)]
  simp

lemma eqLen_dataProcessData :
    ∀ (tables : List Table) (s s' : RState), eqLen s →
      dataProcessData s tables = Except.ok s' → eqLen s' := by
  intro tables
  induction tables with
  | nil =>
    intro s s' h hok
    simp only [dataProcessData, Except.ok.injEq] at hok
    exact hok ▸ h
  | cons t rest ih =>
    intro s s' h hok
    rw [dataProcessData] at hok
    split at hok
    next => exact absurd hok (by simp)
    next s1 hs1 => exact ih s1 s' (eqLen_processTable s s1 t h hs1) hok

/-! ## Claim C4: table classification -/

/-- C4: a table's classification string is the header-cell texts of its
first row joined by single spaces; a case-sensitive substring search
dispatches first-match-wins — `"тариф"` selects Schema A processing (even
when `"Интернет"` also occurs), otherwise `"Интернет"` selects Schema B,
otherwise the table is skipped with no records, no error, and the state
(all four output lists and the channel registry) unchanged. -/
theorem c4_classification (s : RState) (t : Table) (r0 : Row) (h0 : t[0]? = some r0) :
    (containsSub "тариф" (unitedHeads r0.ths) = true →
      processTable s t = processTariff s t) ∧
    (containsSub "тариф" (unitedHeads r0.ths) = false →
      containsSub "Интернет" (unitedHeads r0.ths) = true →
      processTable s t = processTariffTV s t r0.ths) ∧
    (containsSub "тариф" (unitedHeads r0.ths) = false →
      containsSub "Интернет" (unitedHeads r0.ths) = false →
      processTable s t = Except.ok s) := by
  refine ⟨fun h1 => ?_, fun h1 h2 => ?_, fun h1 h2 => ?_⟩ <;>
    simp [processTable, h0, h1]
  · simp [h2]
  · simp [h2]

/-- C4 witness: a header row reading `"Название тарифа"` contains
`"тариф"`, so the table is processed as Schema A. -/
theorem c4_classification_witness :
    (([⟨["Название тарифа"], []⟩] : Table)[0]? = some (⟨["Название тарифа"], []⟩ : Row)) ∧
    ((containsSub "тариф" (unitedHeads (["Название тарифа"] : List String)) = true →
      processTable initRState [⟨["Название тарифа"], []⟩] =
        processTariff initRState [⟨["Название тарифа"], []⟩]) ∧
    (containsSub "тариф" (unitedHeads (["Название тарифа"] : List String)) = false →
      containsSub "Интернет" (unitedHeads (["Название тарифа"] : List String)) = true →
      processTable initRState [⟨["Название тарифа"], []⟩] =
        processTariffTV initRState [⟨["Название тарифа"], []⟩] ["Название тарифа"]) ∧
    (containsSub "тариф" (unitedHeads (["Название тарифа"] : List String)) = false →
      containsSub "Интернет" (unitedHeads (["Название тарифа"] : List String)) = false →
      processTable initRState [⟨["Название тарифа"], []⟩] = Except.ok initRState)) :=
  ⟨rfl, c4_classification initRState [⟨["Название тарифа"], []⟩] ⟨["Название тарифа"], []⟩ rfl⟩

/-! ## Claim C7: Schema A channels are null -/

/-- C7: every record a Schema A (format 1) table appends carries the
code's null marker in its channel cell (the Python code appends the
literal string `'null'`, its representation of a missing channel count). -/
theorem c7_schemaA_channels_null (s s' : RState) (rows : List Row)
    (hok : processTariff s rows = Except.ok s') :
    ∀ c ∈ s'.channels.drop s.channels.length, c = Sum.inl "null" := by
  rw [processTariff] at hok
  obtain ⟨rs, hrs, hnull⟩ := processTariffRows_ok_spec _ s s' hok
  subst hrs
  rw [appendRecords_channels, List.drop_left]
  intro c hc
  obtain ⟨r, hr, hrc⟩ := List.mem_map.mp hc
  exact hrc ▸ hnull r hr

/-- C7 witness: the Schema A example row yields a `'null'` channel cell. -/
theorem c7_schemaA_channels_null_witness :
    (processTariff initRState
        [⟨["Название тарифа"], []⟩, ⟨[], ["Старт", "350 руб", "-", "Скорость до 30 Мбит/с"]⟩] =
      Except.ok ⟨["Старт"], [Sum.inl "null"], [0], [350], []⟩) ∧
    (∀ c ∈ (⟨["Старт"], [Sum.inl "null"], [0], [350], []⟩ : RState).channels.drop
        initRState.channels.length, c = Sum.inl "null") :=
  ⟨rfl, c7_schemaA_channels_null initRState ⟨["Старт"], [Sum.inl "null"], [0], [350], []⟩
    [⟨["Название тарифа"], []⟩, ⟨[], ["Старт", "350 руб", "-", "Скорость до 30 Мбит/с"]⟩] rfl⟩

/-! ## Claim C8: registry lifetime is one process call -/

/-- C8: `ParserRialcom.process_data` builds a fresh `DataRialcom` whose
`__init__` resets the channel registry, so every invocation starts from
an empty registry and its result depends only on the parsed page, never
on registry entries (or lists) left by an earlier invocation. -/
theorem c8_fresh_registry :
    initRState.registry = [] ∧
    (∀ ps : ParserState, parserProcessData ps = dataProcessData initRState ps.data) ∧
    (∀ ps ps' : ParserState, ps.data = ps'.data →
      parserProcessData ps = parserProcessData ps') :=
  ⟨rfl, fun _ => rfl, fun ps ps' h => by rw [parserProcessData, parserProcessData, h]⟩

/-- C8 witness: two parser instances over the same page but with different
leftover lists and registries produce identical results. -/
theorem c8_fresh_registry_witness :
    ((⟨[], [], [], [], [], []⟩ : ParserState).data =
      (⟨["x"], [Sum.inr 7], [9], [9], [("Комфорт", 120)], []⟩ : ParserState).data) ∧
    parserProcessData ⟨[], [], [], [], [], []⟩ =
      parserProcessData ⟨["x"], [Sum.inr 7], [9], [9], [("Комфорт", 120)], []⟩ :=
  ⟨rfl, c8_fresh_registry.2.2 ⟨[], [], [], [], [], []⟩
    ⟨["x"], [Sum.inr 7], [9], [9], [("Комфорт", 120)], []⟩ rfl⟩

/-! ## Claim C9: export shape -/

/-- C9: the export produced by `save_data` has exactly four columns with
the fixed Cyrillic headers in their fixed order, column `i` holding the
`i`-th output sequence, written to `name + ".xlsx"`; the headers and
column order are constants, independent of the processed data. -/
theorem c9_export_shape (name : String) (r : RState) :
    (saveData name r).filename = name ++ ".xlsx" ∧
    (saveData name r).cols.length = 4 ∧
    (saveData name r).cols.map Prod.fst =
      ["Название тарифа", "Количество каналов", "Скорость доступа", "Абонентская плата"] ∧
    (saveData name r).cols.map Prod.fst = excelHeaders ∧
    (saveData name r).cols.map Prod.snd =
      [r.names, r.channels.map showChannel, r.speeds.map toString, r.payments.map toString] ∧
    ∀ (name' : String) (r' : RState),
      (saveData name' r').cols.map Prod.fst = (saveData name r).cols.map Prod.fst :=
  ⟨rfl, rfl, rfl, rfl, rfl, fun _ _ => rfl⟩

/-! ## Claim C10: an empty table raises -/

/-- C10: a table with zero rows is not skipped: reading the header cells
of its (absent) first row raises `IndexError`, both at the per-table step
and for a whole `process_data` run reaching such a table. -/
theorem c10_empty_table_raises :
    (∀ s : RState, processTable s ([] : Table) = Except.error PyErr.indexError) ∧
    (∀ (s : RState) (rest : List Table),
      dataProcessData s (([] : Table) :: rest) = Except.error PyErr.indexError) :=
  ⟨fun _ => rfl, fun _ _ => rfl⟩

/-! ## Claim C5: equal lengths of the four output lists -/

/-- C5: the equal-length invariant of the four output lists holds at
every point of processing: it is preserved by every single record append,
by every Schema A row loop, by every Schema B column loop and row loop,
by every processed table, and by every whole `process_data` run (each
intermediate state of a run is the start state of one of these steps). -/
theorem c5_equal_lengths :
    (∀ (s : RState) (r : Rec), eqLen s → eqLen (appendRecord s r)) ∧
    (∀ (rows : List Row) (s s' : RState), eqLen s →
      processTariffRows rows s = Except.ok s' → eqLen s') ∧
    (∀ (tariff : String) (ch : Nat) (it : Bool) (hs cs : List String) (s s' : RState),
      eqLen s → wrtiteTariffTVCols tariff ch it hs cs s = Except.ok s' → eqLen s') ∧
    (∀ (heads : List String) (rows : List Row) (s s' : RState), eqLen s →
      processTariffTVRows heads rows s = Except.ok s' → eqLen s') ∧
    (∀ (s s' : RState) (t : Table), eqLen s → processTable s t = Except.ok s' → eqLen s') ∧
    (∀ (tables : List Table) (s s' : RState), eqLen s →
      dataProcessData s tables = Except.ok s' → eqLen s') := by
  refine ⟨eqLen_appendRecord, eqLen_processTariffRows, ?_,
    eqLen_processTariffTVRows, eqLen_processTable, eqLen_dataProcessData⟩
  intro tariff ch it hs cs s s' h hok
  obtain ⟨rs, hrs, -, -⟩ := wrtiteCols_ok_spec tariff ch it hs cs s s' hok
  exact hrs ▸ eqLen_appendRecords s rs h

/-- C5 witness: a run over one Schema A table and one Schema B table
starts and ends with equal-length lists. -/
theorem c5_equal_lengths_witness :
    eqLen initRState ∧
    (dataProcessData initRState
        [[⟨["Название тарифа"], []⟩, ⟨[], ["Старт", "350 руб", "-", "Скорость до 30 Мбит/с"]⟩],
         [⟨["", "Интернет 50"], []⟩, ⟨[], ["Комфорт (120 каналов)", "600"]⟩]] =
      Except.ok ⟨["Старт", "Комфорт (120 каналов) + РиалКом Интернет 50 + TB"],
        [Sum.inl "null", Sum.inr 120], [0, 50], [350, 600], [("Комфорт", 120)]⟩) ∧
    eqLen ⟨["Старт", "Комфорт (120 каналов) + РиалКом Интернет 50 + TB"],
      [Sum.inl "null", Sum.inr 120], [0, 50], [350, 600], [("Комфорт", 120)]⟩ :=
  ⟨⟨rfl, rfl, rfl⟩, rfl,
    c5_equal_lengths.2.2.2.2.2
      [[⟨["Название тарифа"], []⟩, ⟨[], ["Старт", "350 руб", "-", "Скорость до 30 Мбит/с"]⟩],
       [⟨["", "Интернет 50"], []⟩, ⟨[], ["Комфорт (120 каналов)", "600"]⟩]]
      initRState _ ⟨rfl, rfl, rfl⟩ rfl⟩

/-! ## Claim C2: Schema B per-column records -/

/-- C2: a successful `__wrtite_tariff_TV` call appends exactly one record
per header cell after the first; for column `i` (`1 ≤ i < len(heads)`)
the record's speed is the first digit run of that header cell's stripped
text, its payment is the same-index data cell parsed as an integer, its
channel count is the one resolved for the row (the same for every
column), and its name is the bundle label, the connector
`" + РиалКом Интернет "`, the speed, and `" + TB_ч"` for a repeat bundle
(`is_tariff`) or `" + TB"` otherwise.  The registry is untouched. -/
theorem c2_schemaB_per_column (s s' : RState) (heads columns : List String) (ch : Nat)
    (it : Bool) (tariff : String)
    (hok : wrtiteTariffTV s heads columns ch it tariff = Except.ok s') :
    s'.names.length = s.names.length + (heads.length - 1) ∧
    s'.registry = s.registry ∧
    ∀ i, 1 ≤ i → i < heads.length →
      ∃ h c sp pay,
        heads[i]? = some h ∧ columns[i]? = some c ∧
        firstDigitRunNat (pyStrip h) = some sp ∧ pyInt (pyStrip c) = some pay ∧
        s'.names[s.names.length + (i - 1)]? =
          some (tariff ++ " + РиалКом Интернет " ++ toString sp ++
            (if it then " + TB_ч" else " + TB")) ∧
        s'.channels[s.channels.length + (i - 1)]? = some (Sum.inr ch) ∧
        s'.speeds[s.speeds.length + (i - 1)]? = some sp ∧
        s'.payments[s.payments.length + (i - 1)]? = some pay := by
  rw [wrtiteTariffTV] at hok
  obtain ⟨rs, hrs, hlen, hidx⟩ := wrtiteCols_ok_spec tariff ch it _ _ s s' hok
  subst hrs
  have hlen' : rs.length = heads.length - 1 := by simpa using hlen
  refine ⟨by simp [appendRecords_names, hlen'], appendRecords_registry s rs, ?_⟩
  intro i hi1 hi2
  have hk : i - 1 < (heads.drop 1).length := by simp; omega
  obtain ⟨h, c, sp, pay, hh, hc, hsp, hpay, hr⟩ := hidx (i - 1) hk
  refine ⟨h, c, sp, pay, ?_, ?_, hsp, hpay, ?_, ?_, ?_, ?_⟩
  · rw [List.getElem?_drop] at hh
    rw [show i = 1 + (i - 1) by omega]
    exact hh
  · rw [List.getElem?_drop] at hc
    rw [show i = 1 + (i - 1) by omega]
    exact hc
  · rw [appendRecords_names, List.getElem?_append_right (Nat.le_add_right _ _)]
    simp only [Nat.add_sub_cancel_left, List.getElem?_map, hr, Option.map_some]
    simp [mkTVName]
  · rw [appendRecords_channels, List.getElem?_append_right (Nat.le_add_right _ _)]
    simp [hr]
  · rw [appendRecords_speeds, List.getElem?_append_right (Nat.le_add_right _ _)]
    simp [hr]
  · rw [appendRecords_payments, List.getElem?_append_right (Nat.le_add_right _ _)]
    simp [hr]

/-- C2 witness: one Schema B row under headers `["", "Интернет 50"]` with
payment cell `"600"`, first-seen bundle, channel count 120. -/
theorem c2_schemaB_per_column_witness :
    (wrtiteTariffTV initRState ["", "Интернет 50"] ["Комфорт (120 каналов)", "600"] 120 false
        "Комфорт (120 каналов)" =
      Except.ok ⟨["Комфорт (120 каналов) + РиалКом Интернет 50 + TB"], [Sum.inr 120],
        [50], [600], []⟩) ∧
    ((⟨["Комфорт (120 каналов) + РиалКом Интернет 50 + TB"], [Sum.inr 120],
        [50], [600], []⟩ : RState).names.length =
      initRState.names.length + ((["", "Интернет 50"] : List String).length - 1) ∧
    (⟨["Комфорт (120 каналов) + РиалКом Интернет 50 + TB"], [Sum.inr 120],
        [50], [600], []⟩ : RState).registry = initRState.registry ∧
    ∀ i, 1 ≤ i → i < (["", "Интернет 50"] : List String).length →
      ∃ h c sp pay,
        (["", "Интернет 50"] : List String)[i]? = some h ∧
        (["Комфорт (120 каналов)", "600"] : List String)[i]? = some c ∧
        firstDigitRunNat (pyStrip h) = some sp ∧ pyInt (pyStrip c) = some pay ∧
        (⟨["Комфорт (120 каналов) + РиалКом Интернет 50 + TB"], [Sum.inr 120],
            [50], [600], []⟩ : RState).names[initRState.names.length + (i - 1)]? =
          some ("Комфорт (120 каналов)" ++ " + РиалКом Интернет " ++ toString sp ++
            (if false then " + TB_ч" else " + TB")) ∧
        (⟨["Комфорт (120 каналов) + РиалКом Интернет 50 + TB"], [Sum.inr 120],
            [50], [600], []⟩ : RState).channels[initRState.channels.length + (i - 1)]? =
          some (Sum.inr 120) ∧
        (⟨["Комфорт (120 каналов) + РиалКом Интернет 50 + TB"], [Sum.inr 120],
            [50], [600], []⟩ : RState).speeds[initRState.speeds.length + (i - 1)]? = some sp ∧
        (⟨["Комфорт (120 каналов) + РиалКом Интернет 50 + TB"], [Sum.inr 120],
            [50], [600], []⟩ : RState).payments[initRState.payments.length + (i - 1)]? =
          some pay) :=
  ⟨rfl, c2_schemaB_per_column initRState
    ⟨["Комфорт (120 каналов) + РиалКом Интернет 50 + TB"], [Sum.inr 120], [50], [600], []⟩
    ["", "Интернет 50"] ["Комфорт (120 каналов)", "600"] 120 false "Комфорт (120 каналов)" rfl⟩

/-! ## Claim C1: repeat bundles -/

/-- The Schema B table of the C1 scenario: one speed column
`"Интернет 50"`, one data row labelled `"Комфорт (120 каналов)"`. -/
def c1Tbl : Table := [⟨["", "Интернет 50"], []⟩, ⟨[], ["Комфорт (120 каналов)", "600"]⟩]

/-- The name the code synthesizes for BOTH occurrences of the label. -/
def c1SecondName : String := "Комфорт (120 каналов) + РиалКом Интернет 50 + TB"

/-- C1 counterexample: processing the same Schema B table twice, the
second occurrence of the exact same bundle label `"Комфорт (120 каналов)"`
does NOT produce a `TB_ч`-suffixed name — the registry was keyed by the
base name `"Комфорт"`, the lookup uses the full label and misses, the
parenthetical is parsed again and the suffix is `" + TB"` again. -/
theorem c1_counterexample :
    dataProcessData initRState [c1Tbl, c1Tbl] =
      Except.ok ⟨[c1SecondName, c1SecondName], [Sum.inr 120, Sum.inr 120], [50, 50],
        [600, 600], [("Комфорт", 120)]⟩ ∧
    c1SecondName.endsWith "TB_ч" = false :=
  ⟨rfl, rfl⟩

/-- C1 (amended): a Schema B row is treated as a repeat bundle exactly
when its stripped label is a key of the registry — and the stored keys
are base names (label text before the parenthetical), not full labels.
On a registry hit the row's records all get the stored channel count and
a name ending in `" + TB_ч"`, and the parenthetical is not parsed again
(the registry is unchanged by the row's appends). -/
theorem c1_amended_repeat_semantics (s : RState) (heads : List String) (row : Row)
    (rest : List Row) (c0 : String) (ch : Nat)
    (h0 : row.tds[0]? = some c0)
    (hit : s.registry.lookup (pyStrip c0) = some ch) :
    (processTariffTVRows heads (row :: rest) s =
      match wrtiteTariffTV s heads row.tds ch true (pyStrip c0) with
      | Except.error e => Except.error e
      | Except.ok s1 => processTariffTVRows heads rest s1) ∧
    ∀ s' : RState, wrtiteTariffTV s heads row.tds ch true (pyStrip c0) = Except.ok s' →
      s'.registry = s.registry ∧
      (∀ n ∈ s'.names.drop s.names.length, ∃ sp : Nat,
        n = pyStrip c0 ++ " + РиалКом Интернет " ++ toString sp ++ " + TB_ч") ∧
      (∀ c ∈ s'.channels.drop s.channels.length, c = Sum.inr ch) := by
  constructor
  · rw [processTariffTVRows]
    simp only [h0, hit]
  · intro s' hok
    rw [wrtiteTariffTV] at hok
    obtain ⟨rs, hrs, hlen, hidx⟩ := wrtiteCols_ok_spec (pyStrip c0) ch true _ _ s s' hok
    subst hrs
    have hmem : ∀ r ∈ rs, ∃ sp pay,
        r = ⟨mkTVName (pyStrip c0) sp true, Sum.inr ch, sp, pay⟩ := by
      intro r hr
      obtain ⟨k, hk, hkr⟩ := List.getElem_of_mem hr
      obtain ⟨h', c', sp, pay, -, -, -, -, hr5⟩ := hidx k (by rw [← hlen]; exact hk)
      have hsome : rs[k]? = some r := by simp [List.getElem?_eq_getElem hk, hkr]
      rw [hsome] at hr5
      exact ⟨sp, pay, Option.some.inj hr5⟩
    refine ⟨appendRecords_registry s rs, ?_, ?_⟩
    · rw [appendRecords_names, List.drop_left]
      intro n hn
      obtain ⟨r, hr, hrn⟩ := List.mem_map.mp hn
      obtain ⟨sp, pay, hre⟩ := hmem r hr
      exact ⟨sp, by rw [← hrn, hre]; simp [mkTVName]⟩
    · rw [appendRecords_channels, List.drop_left]
      intro c hc
      obtain ⟨r, hr, hrc⟩ := List.mem_map.mp hc
      obtain ⟨sp, pay, hre⟩ := hmem r hr
      rw [← hrc, hre]

/-- A row whose label `"Комфорт"` (no parenthetical) hits a registry
entry stored by an earlier `"Комфорт (120 каналов)"` row. -/
def c1WitState : RState := ⟨[], [], [], [], [("Комфорт", 120)]⟩

/-- The repeat-bundle row of the C1 witness. -/
def c1WitRow : Row := ⟨[], ["Комфорт", "700"]⟩

/-- C1 witness: with `"Комфорт" ↦ 120` stored, a row labelled `"Комфорт"`
is a registry hit: its record is `"Комфорт + РиалКом Интернет 50 + TB_ч"`
with channel count 120 and untouched registry. -/
theorem c1_amended_repeat_semantics_witness :
    (c1WitRow.tds[0]? = some "Комфорт" ∧
      c1WitState.registry.lookup (pyStrip "Комфорт") = some 120) ∧
    ((processTariffTVRows ["", "Интернет 50"] [c1WitRow] c1WitState =
      match wrtiteTariffTV c1WitState ["", "Интернет 50"] c1WitRow.tds 120 true
          (pyStrip "Комфорт") with
      | Except.error e => Except.error e
      | Except.ok s1 => processTariffTVRows ["", "Интернет 50"] [] s1) ∧
    ∀ s' : RState,
      wrtiteTariffTV c1WitState ["", "Интернет 50"] c1WitRow.tds 120 true
          (pyStrip "Комфорт") = Except.ok s' →
      s'.registry = c1WitState.registry ∧
      (∀ n ∈ s'.names.drop c1WitState.names.length, ∃ sp : Nat,
        n = pyStrip "Комфорт" ++ " + РиалКом Интернет " ++ toString sp ++ " + TB_ч") ∧
      (∀ c ∈ s'.channels.drop c1WitState.channels.length, c = Sum.inr 120)) :=
  ⟨⟨rfl, rfl⟩, c1_amended_repeat_semantics c1WitState ["", "Интернет 50"] c1WitRow []
    "Комфорт" 120 rfl rfl⟩

/-! ## Claim C3: Schema A extraction -/

/-- The Schema A example table of the spec: header mentioning `"тариф"`,
one data row `["Старт", "350 руб", "-", "Скорость до 30 Мбит/с"]`. -/
def c3Tbl : Table :=
  [⟨["Название тарифа"], []⟩, ⟨[], ["Старт", "350 руб", "-", "Скорость до 30 Мбит/с"]⟩]

/-- C3 counterexample: on the claim's own example row the code emits
`speed_mbps = 0`, not `30` — the digit run of cell 3 is `"30"` and
`30 // 1000 = 0`.  (The claim's general rule and its example contradict
each other; the code follows the rule.) -/
theorem c3_counterexample :
    dataProcessData initRState [c3Tbl] =
      Except.ok ⟨["Старт"], [Sum.inl "null"], [0], [350], []⟩ ∧
    (0 : Nat) ≠ 30 :=
  ⟨rfl, by decide⟩

/-- C3 (amended): a Schema A data row emits one record with name = cell 0
stripped, channels = the null marker, speed = the first digit run of cell
3's stripped text divided by 1000 with truncating division, payment = the
first whitespace token of cell 1's stripped text parsed as an integer;
the example row therefore yields speed 0 (30 // 1000), not 30. -/
theorem c3_amended_schemaA_row (s s' : RState) (row : Row) (rest : List Row)
    (c0 c1 c3 : String) (run : Nat) (tok : String) (pay : Int)
    (h0 : row.tds[0]? = some c0) (h3 : row.tds[3]? = some c3)
    (hrun : firstDigitRunNat (pyStrip c3) = some run)
    (h1 : row.tds[1]? = some c1)
    (htok : (pySplit (pyStrip c1))[0]? = some tok)
    (hpay : pyInt tok = some pay)
    (hok : processTariffRows (row :: rest) s = Except.ok s') :
    s'.names[s.names.length]? = some (pyStrip c0) ∧
    s'.channels[s.channels.length]? = some (Sum.inl "null") ∧
    s'.speeds[s.speeds.length]? = some (run / 1000) ∧
    s'.payments[s.payments.length]? = some pay := by
  rw [processTariffRows] at hok
  simp only [h0, h3, hrun, h1, htok, hpay] at hok
  obtain ⟨rs, hrs, -⟩ := processTariffRows_ok_spec rest _ s' hok
  subst hrs
  refine ⟨?_, ?_, ?_, ?_⟩ <;>
    simp only [appendRecords_names, appendRecords_channels, appendRecords_speeds,
      appendRecords_payments, appendRecord, List.append_assoc, List.singleton_append] <;>
    exact getElem?_middle _ _ _

/-- C3 witness: the amended extraction applied to the example row, giving
`{name "Старт", channels null-marker, speed 0, payment 350}`. -/
theorem c3_amended_schemaA_row_witness :
    ((⟨[], ["Старт", "350 руб", "-", "Скорость до 30 Мбит/с"]⟩ : Row).tds[0]? = some "Старт" ∧
      (⟨[], ["Старт", "350 руб", "-", "Скорость до 30 Мбит/с"]⟩ : Row).tds[3]? =
        some "Скорость до 30 Мбит/с" ∧
      firstDigitRunNat (pyStrip "Скорость до 30 Мбит/с") = some 30 ∧
      (⟨[], ["Старт", "350 руб", "-", "Скорость до 30 Мбит/с"]⟩ : Row).tds[1]? = some "350 руб" ∧
      (pySplit (pyStrip "350 руб"))[0]? = some "350" ∧
      pyInt "350" = some 350 ∧
      processTariffRows [⟨[], ["Старт", "350 руб", "-", "Скорость до 30 Мбит/с"]⟩] initRState =
        Except.ok ⟨["Старт"], [Sum.inl "null"], [0], [350], []⟩) ∧
    ((⟨["Старт"], [Sum.inl "null"], [0], [350], []⟩ : RState).names[initRState.names.length]? =
        some (pyStrip "Старт") ∧
      (⟨["Старт"], [Sum.inl "null"], [0], [350], []⟩ :
          RState).channels[initRState.channels.length]? = some (Sum.inl "null") ∧
      (⟨["Старт"], [Sum.inl "null"], [0], [350], []⟩ :
          RState).speeds[initRState.speeds.length]? = some (30 / 1000) ∧
      (⟨["Старт"], [Sum.inl "null"], [0], [350], []⟩ :
          RState).payments[initRState.payments.length]? = some 350) :=
  ⟨⟨rfl, rfl, rfl, rfl, rfl, rfl, rfl⟩,
    c3_amended_schemaA_row initRState ⟨["Старт"], [Sum.inl "null"], [0], [350], []⟩
      ⟨[], ["Старт", "350 руб", "-", "Скорость до 30 Мбит/с"]⟩ []
      "Старт" "350 руб" "Скорость до 30 Мбит/с" 30 "350" 350
      rfl rfl rfl rfl rfl rfl rfl⟩

/-! ## Claim C6: failure semantics -/

/-- A Schema B table whose row 1 payment cell is non-numeric. -/
def c6TblBadFirst : Table :=
  [⟨["", "Интернет 50"], []⟩, ⟨[], ["Эконом (45 каналов)", "уточнить"]⟩]

/-- A well-formed Schema B table. -/
def c6TblOk : Table :=
  [⟨["", "Интернет 50"], []⟩, ⟨[], ["Комфорт (120 каналов)", "600"]⟩]

/-- A Schema B table whose row 2 payment cell is non-numeric. -/
def c6TblBadSecond : Table :=
  [⟨["", "Интернет 50"], []⟩, ⟨[], ["Старт (10 каналов)", "500"]⟩,
   ⟨[], ["Эконом (45 каналов)", "уточнить"]⟩]

/-- C6 counterexample: two inputs whose malformed cell sits at different
table and row indices (table 0 row 1 versus table 1 row 2) abort with
the IDENTICAL error value — the raised `ValueError` carries only the
offending literal, so the error does not identify the offending table
index, row index, or field, contrary to the claim. -/
theorem c6_counterexample :
    dataProcessData initRState [c6TblBadFirst] =
      Except.error (PyErr.valueError "уточнить") ∧
    dataProcessData initRState [c6TblOk, c6TblBadSecond] =
      Except.error (PyErr.valueError "уточнить") :=
  ⟨rfl, rfl⟩

/-- C6 (amended): each malformed-cell kind aborts the whole call — a
Schema A cell 3 with no digit run and a Schema B unregistered label with
no parenthesized digit group raise `AttributeError`, a Schema B header
cell with no digit run raises `AttributeError`, a non-numeric payment
cell raises `ValueError` quoting only the literal — and an error in any
table aborts `process_data` with that bare error, so no records from any
table reach the caller; the error does not name a table index, row
index, or field. -/
theorem c6_amended_error_modes :
    (∀ (s : RState) (row : Row) (rest : List Row) (c0 c3 : String),
      row.tds[0]? = some c0 → row.tds[3]? = some c3 →
      firstDigitRunNat (pyStrip c3) = none →
      processTariffRows (row :: rest) s = Except.error PyErr.attrError) ∧
    (∀ (s : RState) (heads : List String) (row : Row) (rest : List Row) (c0 : String),
      row.tds[0]? = some c0 → s.registry.lookup (pyStrip c0) = none →
      bundleSearch (pyStrip c0) = none →
      processTariffTVRows heads (row :: rest) s = Except.error PyErr.attrError) ∧
    (∀ (tariff : String) (ch : Nat) (it : Bool) (h : String) (hs cs : List String)
      (s : RState),
      firstDigitRunNat (pyStrip h) = none →
      wrtiteTariffTVCols tariff ch it (h :: hs) cs s = Except.error PyErr.attrError) ∧
    (∀ (tariff : String) (ch : Nat) (it : Bool) (h : String) (hs : List String)
      (c : String) (cs : List String) (s : RState) (sp : Nat),
      firstDigitRunNat (pyStrip h) = some sp → pyInt (pyStrip c) = none →
      wrtiteTariffTVCols tariff ch it (h :: hs) (c :: cs) s =
        Except.error (PyErr.valueError (pyStrip c))) ∧
    (∀ (s : RState) (t : Table) (rest : List Table) (e : PyErr),
      processTable s t = Except.error e →
      dataProcessData s (t :: rest) = Except.error e) := by
  refine ⟨?_, ?_, ?_, ?_, ?_⟩
  · intro s row rest c0 c3 h0 h3 hrun
    rw [processTariffRows]
    simp only [h0, h3, hrun]
  · intro s heads row rest c0 h0 hlook hbun
    rw [processTariffTVRows]
    simp only [h0, hlook, hbun]
  · intro tariff ch it h hs cs s hds
    rw [wrtiteTariffTVCols]
    simp only [hds]
  · intro tariff ch it h hs c cs s sp hsp hpay
    rw [wrtiteTariffTVCols]
    simp only [hsp, hpay]
  · intro s t rest e hpt
    rw [dataProcessData]
    simp only [hpt]

/-- C6 witness: a header cell with a digit run and the payment cell
`"уточнить"` raise `ValueError` quoting the literal. -/
theorem c6_amended_error_modes_witness :
    (firstDigitRunNat (pyStrip "Интернет 50") = some 50 ∧
      pyInt (pyStrip "уточнить") = none) ∧
    wrtiteTariffTVCols "Эконом (45 каналов)" 45 false ["Интернет 50"] ["уточнить"]
        initRState =
      Except.error (PyErr.valueError (pyStrip "уточнить")) :=
  ⟨⟨rfl, rfl⟩, c6_amended_error_modes.2.2.2.1 "Эконом (45 каналов)" 45 false
    "Интернет 50" [] "уточнить" [] initRState 50 rfl rfl⟩

end Rialcom
